import Mathlib

/-!
Verification development for the tldraw canvas bridge.

Part 1 embeds the shape descriptor normalizer and command handler of
`src/src/useCanvasBridge.ts` (the renderer-side command executor).
Part 2 embeds the MCP bridge core of `src/mcp-server/index.js`
(connection slot, correlation table, request ids, timeouts).

Numbers are modelled as rationals: the JS arithmetic used here
(subtraction, halving, defaulting) is exact on the inputs of interest.
-/

namespace CanvasBridge

/-- A 2-d point as supplied by the caller for draw/freehand shapes;
the pressure coordinate `z` may be absent. -/
structure PointIn where
  x : Rat
  y : Rat
  z : Option Rat
deriving DecidableEq

/-- A fully defaulted point inside a normalized draw segment. -/
structure PointOut where
  x : Rat
  y : Rat
  z : Rat
deriving DecidableEq

/-- Segment type for draw shapes: `free` or `straight`. -/
inductive SegType where
  | free
  | straight
deriving DecidableEq

/-- A caller-supplied segment (points may lack `z`). -/
structure SegmentIn where
  type : SegType
  points : List PointIn
deriving DecidableEq

/-- A normalized segment (every point carries a pressure value). -/
structure SegmentOut where
  type : SegType
  points : List PointOut
deriving DecidableEq

/-- Model of tldraw's `toRichText`: an injective wrapper around the
plain string (the library's internal rich-text encoding is external). -/
structure RichText where
  text : String
deriving DecidableEq

def toRichText (s : String) : RichText := ⟨s⟩

/-- One endpoint record of a `line` shape (`a1`/`a2` in the source). -/
structure LinePoint where
  id : String
  index : String
  x : Rat
  y : Rat
deriving DecidableEq

/-- A plain 2-d vector, used for arrow start/end offsets. -/
structure Vec2 where
  x : Rat
  y : Rat
deriving DecidableEq

/-- The `props` field of the shape partial, by shape type, exactly the
fields the source sets in each `case` of `createShape`. -/
inductive ShapeProps where
  | geo (geo : String) (w h : Rat)
  | text (richText : RichText)
  | note (richText : RichText)
  | arrow (startPt endPt : Vec2)
  | line (a1 a2 : LinePoint)
  | draw (segments : List SegmentOut) (color size fill dash : String)
      (isComplete isClosed isPen : Bool) (scale : Rat)
deriving DecidableEq

/-- The renderer-native shape record built by `createShape`
(`TLShapePartial` in the source). Shape ids are modelled as naturals. -/
structure TLShapePartial where
  id : Nat
  type : String
  x : Rat
  y : Rat
  props : ShapeProps
deriving DecidableEq

/-- Caller-supplied shape descriptor: the fields `createShape` reads
from `params`. Optional fields are `Option`; absent means `undefined`. -/
structure ShapeDescriptor where
  kind : String
  x : Rat
  y : Rat
  width : Option Rat
  height : Option Rat
  text : Option String
  endX : Option Rat
  endY : Option Rat
  points : Option (List PointIn)
  segments : Option (List SegmentIn)
  color : Option String
  size : Option String
  isClosed : Option Bool
  fill : Option String
deriving DecidableEq

/-- Default a draw point's pressure to 0.5 (`p.z ?? 0.5`). -/
def defaultPoint (p : PointIn) : PointOut :=
  ⟨p.x, p.y, p.z.getD (1/2)⟩

/-- Normalize one caller-supplied segment (`seg.points.map(...)`). -/
def defaultSegment (seg : SegmentIn) : SegmentOut :=
  ⟨seg.type, seg.points.map defaultPoint⟩

/-- Result of building a shape partial: the partial, or the error
string of the failing branch. -/
inductive NormResult where
  | ok (sp : TLShapePartial)
  | error (msg : String)
deriving DecidableEq

/-- The `switch (kind)` of `createShape` in `useCanvasBridge.ts`: build
the shape partial for a descriptor, or return the error string of the
failing branch (`default` case, or a draw shape with no path data). -/
def createShapePartial (shapeId : Nat) (p : ShapeDescriptor) :
    NormResult :=
  let width := p.width.getD 100
  let height := p.height.getD 100
  match p.kind with
  | "rectangle" =>
      .ok ⟨shapeId, "geo", p.x - width / 2, p.y - height / 2,
        .geo "rectangle" width height⟩
  | "circle" =>
      .ok ⟨shapeId, "geo", p.x - width / 2, p.y - width / 2,
        .geo "ellipse" width width⟩
  | "ellipse" =>
      .ok ⟨shapeId, "geo", p.x - width / 2, p.y - height / 2,
        .geo "ellipse" width height⟩
  | "triangle" =>
      .ok ⟨shapeId, "geo", p.x - width / 2, p.y - height / 2,
        .geo "triangle" width height⟩
  | "star" =>
      .ok ⟨shapeId, "geo", p.x - width / 2, p.y - height / 2,
        .geo "star" width height⟩
  | "diamond" =>
      .ok ⟨shapeId, "geo", p.x - width / 2, p.y - height / 2,
        .geo "diamond" width height⟩
  | "hexagon" =>
      .ok ⟨shapeId, "geo", p.x - width / 2, p.y - height / 2,
        .geo "hexagon" width height⟩
  | "cloud" =>
      .ok ⟨shapeId, "geo", p.x - width / 2, p.y - height / 2,
        .geo "cloud" width height⟩
  | "text" =>
      .ok ⟨shapeId, "text", p.x, p.y,
        .text (toRichText (p.text.getD "Text"))⟩
  | "note" =>
      .ok ⟨shapeId, "note", p.x - width / 2, p.y - height / 2,
        .note (toRichText (p.text.getD "Note"))⟩
  | "arrow" =>
      .ok ⟨shapeId, "arrow", p.x, p.y,
        .arrow ⟨0, 0⟩ ⟨p.endX.getD 100, p.endY.getD 0⟩⟩
  | "line" =>
      .ok ⟨shapeId, "line", p.x, p.y,
        .line ⟨"a1", "a1", 0, 0⟩ ⟨"a2", "a2", p.endX.getD 100, p.endY.getD 0⟩⟩
  | "draw" =>
      match p.segments with
      | some segs =>
          .ok ⟨shapeId, "draw", p.x, p.y,
            .draw (segs.map defaultSegment) (p.color.getD "black")
              (p.size.getD "m") (p.fill.getD "none") "draw"
              true (p.isClosed.getD false) false 1⟩
      | none =>
          match p.points with
          | some pts =>
              .ok ⟨shapeId, "draw", p.x, p.y,
                .draw [⟨.free, pts.map defaultPoint⟩] (p.color.getD "black")
                  (p.size.getD "m") (p.fill.getD "none") "draw"
                  true (p.isClosed.getD false) false 1⟩
          | none => .error "Draw shape requires points or segments"
  | "freehand" =>
      match p.segments with
      | some segs =>
          .ok ⟨shapeId, "draw", p.x, p.y,
            .draw (segs.map defaultSegment) (p.color.getD "black")
              (p.size.getD "m") (p.fill.getD "none") "draw"
              true (p.isClosed.getD false) false 1⟩
      | none =>
          match p.points with
          | some pts =>
              .ok ⟨shapeId, "draw", p.x, p.y,
                .draw [⟨.free, pts.map defaultPoint⟩] (p.color.getD "black")
                  (p.size.getD "m") (p.fill.getD "none") "draw"
                  true (p.isClosed.getD false) false 1⟩
          | none => .error "Draw shape requires points or segments"
  | k => .error ("Unknown shape kind: " ++ k)

/-- The per-shape result `createShape` returns to its caller:
`{ success: true, shapeId }` or `{ error }`. -/
inductive CreateResult where
  | ok (shapeId : Nat)
  | error (msg : String)
deriving DecidableEq

/-- Editor state as seen by the command handler: the current page's
shapes and the set of selected shape ids. -/
structure EditorState where
  shapes : List TLShapePartial
  selectedIds : List Nat
deriving DecidableEq

/-- `editor.getSelectedShapes()`. -/
def getSelectedShapes (ed : EditorState) : List TLShapePartial :=
  ed.shapes.filter (fun sh => ed.selectedIds.contains sh.id)

/-- `editor.deleteShapes(ids)`. -/
def deleteShapes (ed : EditorState) (ids : List Nat) : EditorState :=
  { ed with shapes := ed.shapes.filter (fun sh => !(ids.contains sh.id)) }

/-- `createShape(editor, params)`: normalize the descriptor and, on
success, create the shape in the editor (`editor.createShape`). -/
def createShape (ed : EditorState) (shapeId : Nat) (p : ShapeDescriptor) :
    EditorState × CreateResult :=
  match createShapePartial shapeId p with
  | .error e => (ed, .error e)
  | .ok sp => ({ ed with shapes := ed.shapes ++ [sp] }, .ok shapeId)

/-- The commands `handleCommand` switches on, with their typed params. -/
inductive Command where
  | create_shape (p : ShapeDescriptor)
  | create_shapes (shapes : List ShapeDescriptor)
  | clear
  | get_shapes
  | undo
  | redo
  | zoom_to_fit
  | delete_selected
  | unknown (name : String)
deriving DecidableEq

/-- The result value `handleCommand` sends back, one constructor per
shape of JSON object the source returns. -/
inductive CmdResult where
  | shapeResult (r : CreateResult)
  | batchResult (success : Bool) (count : Nat) (results : List CreateResult)
  | countResult (success : Bool) (deletedCount : Nat)
  | simpleSuccess
  | shapesList (shapes : List TLShapePartial)
  | unknownCmd (msg : String)
deriving DecidableEq

/-- `shapes.map(shape => createShape(editor, shape))` in the
`create_shapes` case: each call gets a fresh shape id (the id counter
stands in for `createShapeId()`, bumped per call as in the source). -/
def createShapesBatch :
    EditorState → Nat → List ShapeDescriptor →
      EditorState × Nat × List CreateResult
  | ed, nextId, [] => (ed, nextId, [])
  | ed, nextId, p :: ps =>
      let step1 := createShape ed nextId p
      let rest := createShapesBatch step1.1 (nextId + 1) ps
      (rest.1, rest.2.1, step1.2 :: rest.2.2)

/-- The `switch (cmd)` of `handleCommand` in `useCanvasBridge.ts`.
Undo/redo history and viewport zoom are external editor facilities;
those cases return their success payload and leave the modelled state
unchanged. -/
def handleCommand (ed : EditorState) (nextId : Nat) (cmd : Command) :
    EditorState × Nat × CmdResult :=
  match cmd with
  | .create_shape p =>
      let r := createShape ed nextId p
      (r.1, nextId + 1, .shapeResult r.2)
  | .create_shapes shapes =>
      let r := createShapesBatch ed nextId shapes
      (r.1, r.2.1, .batchResult true shapes.length r.2.2)
  | .clear =>
      let shapes := ed.shapes
      let ed' := if shapes.length > 0 then deleteShapes ed (shapes.map (·.id)) else ed
      (ed', nextId, .countResult true shapes.length)
  | .get_shapes =>
      (ed, nextId, .shapesList ed.shapes)
  | .undo => (ed, nextId, .simpleSuccess)
  | .redo => (ed, nextId, .simpleSuccess)
  | .zoom_to_fit => (ed, nextId, .simpleSuccess)
  | .delete_selected =>
      let selected := getSelectedShapes ed
      let ed' := if selected.length > 0 then deleteShapes ed (selected.map (·.id)) else ed
      (ed', nextId, .countResult true selected.length)
  | .unknown name => (ed, nextId, .unknownCmd ("Unknown command: " ++ name))

/-- The shape kinds `createShape` accepts (every non-`default` case). -/
def knownKinds : List String :=
  ["rectangle", "circle", "ellipse", "triangle", "star", "diamond",
   "hexagon", "cloud", "text", "note", "arrow", "line", "draw", "freehand"]

/-- The box-like kinds of claim C4 (centered anchor, width/height). -/
def boxKinds : List String :=
  ["rectangle", "ellipse", "triangle", "star", "diamond", "hexagon", "cloud"]

/-- A descriptor that normalizes successfully: known kind and, for
draw/freehand, at least one of `segments`/`points` present. -/
def validDesc (p : ShapeDescriptor) : Bool :=
  match p.kind with
  | "rectangle" | "circle" | "ellipse" | "triangle" | "star" | "diamond"
  | "hexagon" | "cloud" | "text" | "note" | "arrow" | "line" => true
  | "draw" | "freehand" => p.segments.isSome || p.points.isSome
  | _ => false

/-- Whether a normalization result is a success. -/
def isOkE : NormResult → Bool
  | .ok _ => true
  | .error _ => false

/-- The result component of `createShape`, as a function of the shape
id and descriptor alone (it does not depend on the editor state). -/
def cresult (shapeId : Nat) (p : ShapeDescriptor) : CreateResult :=
  match createShapePartial shapeId p with
  | .ok _ => .ok shapeId
  | .error e => .error e

/-!
Part 2: the MCP bridge core of `src/mcp-server/index.js`.

Module state: `canvasClient` (the single renderer connection slot,
handles modelled as naturals), `pendingRequests` (the correlation
table, a map from request id to its pending entry — here carrying the
deadline fixed at submission; the resolve/reject callbacks are
externalized into the step's outcome), and `requestId` (the monotone
id counter). The `setTimeout(..., 10000)` at submission schedules the
timer that fires at `now + TIMEOUT`; the timer firing is the
`timeoutFire` event, whose handler re-checks the table exactly as the
source closure does.
-/

/-- The fixed timeout: 10 time-units (10000 ms in the source). -/
def TIMEOUT : Nat := 10

/-- Bridge module state of `index.js`. -/
structure BridgeState where
  canvasClient : Option Nat
  pendingRequests : List (Nat × Nat)
  requestId : Nat
deriving DecidableEq

/-- `pendingRequests.has(id)`. -/
def hasId (id : Nat) : List (Nat × Nat) → Bool
  | [] => false
  | p :: ps => p.1 == id || hasId id ps

/-- `pendingRequests.delete(id)`. -/
def removeId (id : Nat) (l : List (Nat × Nat)) : List (Nat × Nat) :=
  l.filter (fun p => p.1 != id)

/-- The events the bridge reacts to: a renderer connecting, a
connection's close event, a command submission (`sendToCanvas`, with
the current time), a reply envelope from the renderer, and the firing
of a request's timeout timer. -/
inductive BridgeEvent where
  | connect (h : Nat)
  | closeConn (h : Nat)
  | submit (command : String) (now : Nat)
  | reply (id : Nat) (result : CmdResult)
  | timeoutFire (id : Nat)
deriving DecidableEq

/-- The caller-visible outcome of one step: nothing, a submission that
registered id `id`, a promise resolution with the renderer's payload,
or one of the two rejections the source can produce. -/
inductive BridgeOutcome where
  | silent
  | submitted (id : Nat)
  | resolved (id : Nat) (result : CmdResult)
  | rejectedUnavailable
  | rejectedTimeout (id : Nat)
deriving DecidableEq

/-- Whether an outcome rejects the caller's promise. -/
def isRejection : BridgeOutcome → Bool
  | .rejectedUnavailable => true
  | .rejectedTimeout _ => true
  | _ => false

/-- Whether an outcome settles (resolves or rejects) request `id`. -/
def settlesId (id : Nat) : BridgeOutcome → Bool
  | .resolved j _ => j == id
  | .rejectedTimeout j => j == id
  | _ => false

/-- One event-handler step of `index.js`:
`wss.on("connection")` stores the new socket in `canvasClient`;
each socket's `close` handler sets `canvasClient = null` with no check
that the closing socket is the stored one; `sendToCanvas` rejects
synchronously when `canvasClient` is null, else allocates `++requestId`,
registers the pending entry and schedules its timeout; the `message`
handler guards on `message.id && pendingRequests.has(message.id)`
(the truthiness test makes a reply with id 0 a no-op as well), then
resolves and deletes the pending id, ignoring unknown ids; the
timeout callback deletes and rejects the id if it is still pending. -/
def bridgeStep (s : BridgeState) (e : BridgeEvent) :
    BridgeState × BridgeOutcome :=
  match e with
  | .connect h => ({ s with canvasClient := some h }, .silent)
  | .closeConn _ => ({ s with canvasClient := none }, .silent)
  | .submit _ now =>
      match s.canvasClient with
      | none => (s, .rejectedUnavailable)
      | some _ =>
          let id := s.requestId + 1
          let s' := { s with
            requestId := id,
            pendingRequests := (id, now + TIMEOUT) :: s.pendingRequests }
          (s', .submitted id)
  | .reply id result =>
      if id != 0 && hasId id s.pendingRequests then
        ({ s with pendingRequests := removeId id s.pendingRequests },
          .resolved id result)
      else (s, .silent)
  | .timeoutFire id =>
      if hasId id s.pendingRequests then
        ({ s with pendingRequests := removeId id s.pendingRequests },
          .rejectedTimeout id)
      else (s, .silent)

/-- The module's initial state: no client, empty table, counter 0. -/
def initBridge : BridgeState := ⟨none, [], 0⟩

/-- Run a list of events, collecting each step's outcome. -/
def bridgeRun : BridgeState → List BridgeEvent → BridgeState × List BridgeOutcome
  | s, [] => (s, [])
  | s, e :: es =>
      let step1 := bridgeStep s e
      let rest := bridgeRun step1.1 es
      (rest.1, step1.2 :: rest.2)

/-- How many outcomes of a run settle request `id`. -/
def settleCount (id : Nat) (os : List BridgeOutcome) : Nat :=
  (os.filter (settlesId id)).length

/-!
Helper lemmas about normalization results and batches.
-/

theorem createShapePartial_isOk (i : Nat) (p : ShapeDescriptor) :
    isOkE (createShapePartial i p) = validDesc p := by
  obtain ⟨k, x, y, w, ht, t, ex, ey, pts, segs, c, sz, ic, f⟩ := p
  unfold createShapePartial validDesc
  split <;> try rfl
  all_goals (cases segs <;> cases pts <;> rfl)

theorem createShapePartial_unknown (i : Nat) (p : ShapeDescriptor)
    (h : p.kind ∉ knownKinds) :
    createShapePartial i p = .error ("Unknown shape kind: " ++ p.kind) := by
  obtain ⟨k, x, y, w, ht, t, ex, ey, pts, segs, c, sz, ic, f⟩ := p
  simp only [knownKinds, List.mem_cons, List.not_mem_nil, or_false,
    not_or] at h
  unfold createShapePartial
  split <;> simp_all

theorem createShape_snd (ed : EditorState) (i : Nat) (p : ShapeDescriptor) :
    (createShape ed i p).2 = cresult i p := by
  unfold createShape cresult
  cases createShapePartial i p <;> rfl

theorem createShape_shapes_length (ed : EditorState) (i : Nat)
    (p : ShapeDescriptor) :
    (createShape ed i p).1.shapes.length =
      ed.shapes.length + (if validDesc p then 1 else 0) := by
  have h := createShapePartial_isOk i p
  unfold createShape
  cases hc : createShapePartial i p <;> rw [hc] at h <;>
    simp [isOkE] at h <;> simp [← h, isOkE]

theorem batch_results_length :
    ∀ (ps : List ShapeDescriptor) (ed : EditorState) (nid : Nat),
      ((createShapesBatch ed nid ps).2.2).length = ps.length := by
  intro ps
  induction ps with
  | nil => intro ed nid; rfl
  | cons p ps ih =>
      intro ed nid
      simp [createShapesBatch, ih]

theorem batch_shapes_length :
    ∀ (ps : List ShapeDescriptor) (ed : EditorState) (nid : Nat),
      (createShapesBatch ed nid ps).1.shapes.length =
        ed.shapes.length + (ps.filter validDesc).length := by
  intro ps
  induction ps with
  | nil => intro ed nid; simp [createShapesBatch]
  | cons p ps ih =>
      intro ed nid
      have hlen := createShape_shapes_length ed nid p
      cases hv : validDesc p <;>
        simp [createShapesBatch, ih, hlen, hv, List.filter] <;> omega

theorem batch_get :
    ∀ (ps : List ShapeDescriptor) (ed : EditorState) (nid j : Nat)
      (q : ShapeDescriptor), ps[j]? = some q →
      ((createShapesBatch ed nid ps).2.2)[j]? = some (cresult (nid + j) q) := by
  intro ps
  induction ps with
  | nil => intro ed nid j q h; simp at h
  | cons p ps ih =>
      intro ed nid j q h
      cases j with
      | zero =>
          simp at h
          subst h
          simp [createShapesBatch, createShape_snd]
      | succ j =>
          simp at h
          have hres := ih (createShape ed nid p).1 (nid + 1) j q h
          have harith : nid + 1 + j = nid + (j + 1) := by omega
          rw [harith] at hres
          simp [createShapesBatch, hres]

/-!
Theorems for the claims, in claim order.
-/

/-- C4: every box-like descriptor (rectangle, ellipse, triangle, star,
diamond, hexagon, cloud) normalizes successfully with anchor
`(x − width/2, y − height/2)`, width/height defaulting to 100; for
`circle` both dimensions equal the supplied width (height is ignored)
and the anchor is `(x − width/2, y − width/2)`. -/
theorem c4_box_anchor (i : Nat) (p : ShapeDescriptor) :
    (p.kind ∈ boxKinds →
      ∃ sp, createShapePartial i p = .ok sp ∧
        sp.x = p.x - (p.width.getD 100) / 2 ∧
        sp.y = p.y - (p.height.getD 100) / 2) ∧
    (p.kind = "circle" →
      createShapePartial i p =
        .ok ⟨i, "geo", p.x - (p.width.getD 100) / 2,
          p.y - (p.width.getD 100) / 2,
          .geo "ellipse" (p.width.getD 100) (p.width.getD 100)⟩) := by
  obtain ⟨k, x, y, w, ht, t, ex, ey, pts, segs, c, sz, ic, f⟩ := p
  constructor
  · intro hk
    simp only [boxKinds, List.mem_cons, List.mem_singleton,
      List.not_mem_nil, or_false] at hk
    rcases hk with h | h | h | h | h | h | h <;> subst h <;>
      exact ⟨_, rfl, rfl, rfl⟩
  · intro hk
    subst hk
    rfl

/-- C4 witness: a concrete rectangle descriptor and a concrete circle
descriptor, evaluated. -/
theorem c4_box_anchor_witness :
    (("rectangle" : String) ∈ boxKinds ∧
      ∃ sp,
        createShapePartial 7
          ⟨"rectangle", 600, 400, some 200, some 100, none, none, none,
            none, none, none, none, none, none⟩ = .ok sp ∧
        sp.x = 600 - (200 : Rat) / 2 ∧ sp.y = 400 - (100 : Rat) / 2) ∧
    createShapePartial 8
      ⟨"circle", 600, 400, some 80, some 55, none, none, none,
        none, none, none, none, none, none⟩ =
      .ok ⟨8, "geo", 600 - (80 : Rat) / 2, 400 - (80 : Rat) / 2,
        .geo "ellipse" 80 80⟩ := by
  refine ⟨⟨by decide, ?_⟩, ?_⟩
  · exact
      (c4_box_anchor 7
        ⟨"rectangle", 600, 400, some 200, some 100, none, none, none,
          none, none, none, none, none, none⟩).1 (by decide)
  · exact
      (c4_box_anchor 8
        ⟨"circle", 600, 400, some 80, some 55, none, none, none,
          none, none, none, none, none, none⟩).2 rfl

/-- C7: every arrow or line descriptor keeps its anchor at `(x, y)`;
the start point is the offset `(0, 0)` and the terminal point is the
offset `(endX ?? 100, endY ?? 0)`. -/
theorem c7_connector_offsets (i : Nat) (p : ShapeDescriptor) :
    (p.kind = "arrow" →
      createShapePartial i p =
        .ok ⟨i, "arrow", p.x, p.y,
          .arrow ⟨0, 0⟩ ⟨p.endX.getD 100, p.endY.getD 0⟩⟩) ∧
    (p.kind = "line" →
      createShapePartial i p =
        .ok ⟨i, "line", p.x, p.y,
          .line ⟨"a1", "a1", 0, 0⟩
            ⟨"a2", "a2", p.endX.getD 100, p.endY.getD 0⟩⟩) := by
  obtain ⟨k, x, y, w, ht, t, ex, ey, pts, segs, c, sz, ic, f⟩ := p
  constructor <;> (intro hk; subst hk; rfl)

/-- C7 witness: an arrow at (400, 400) with no endX/endY gets the
default terminal offset (100, 0). -/
theorem c7_connector_offsets_witness :
    createShapePartial 3
      ⟨"arrow", 400, 400, none, none, none, none, none,
        none, none, none, none, none, none⟩ =
      .ok ⟨3, "arrow", 400, 400, .arrow ⟨0, 0⟩ ⟨100, 0⟩⟩ :=
  (c7_connector_offsets 3
    ⟨"arrow", 400, 400, none, none, none, none, none,
      none, none, none, none, none, none⟩).1 rfl

/-- C8: a text descriptor keeps its anchor at `(x, y)` with missing
text defaulting to "Text"; a note descriptor is centered like box-like
shapes with missing text defaulting to "Note". -/
theorem c8_text_note (i : Nat) (p : ShapeDescriptor) :
    (p.kind = "text" →
      createShapePartial i p =
        .ok ⟨i, "text", p.x, p.y, .text (toRichText (p.text.getD "Text"))⟩) ∧
    (p.kind = "note" →
      createShapePartial i p =
        .ok ⟨i, "note", p.x - (p.width.getD 100) / 2,
          p.y - (p.height.getD 100) / 2,
          .note (toRichText (p.text.getD "Note"))⟩) := by
  obtain ⟨k, x, y, w, ht, t, ex, ey, pts, segs, c, sz, ic, f⟩ := p
  constructor <;> (intro hk; subst hk; rfl)

/-- C8 witness: a text descriptor with no text, and a note descriptor
with no text, evaluated. -/
theorem c8_text_note_witness :
    createShapePartial 1
      ⟨"text", 10, 20, none, none, none, none, none,
        none, none, none, none, none, none⟩ =
      .ok ⟨1, "text", 10, 20, .text (toRichText "Text")⟩ ∧
    createShapePartial 2
      ⟨"note", 10, 20, none, none, none, none, none,
        none, none, none, none, none, none⟩ =
      .ok ⟨2, "note", 10 - (100 : Rat) / 2, 20 - (100 : Rat) / 2,
        .note (toRichText "Note")⟩ :=
  ⟨(c8_text_note 1
      ⟨"text", 10, 20, none, none, none, none, none,
        none, none, none, none, none, none⟩).1 rfl,
    (c8_text_note 2
      ⟨"note", 10, 20, none, none, none, none, none,
        none, none, none, none, none, none⟩).2 rfl⟩

/-- C6: a draw/freehand descriptor with only a points array normalizes
to exactly one segment of type `free` holding those points, each
point's pressure defaulting to 0.5; with neither points nor segments
it is rejected with the descriptor error, never an empty path. -/
theorem c6_draw_defaults (i : Nat) (p : ShapeDescriptor)
    (hk : p.kind = "draw" ∨ p.kind = "freehand") :
    (∀ pts, p.segments = none → p.points = some pts →
      createShapePartial i p =
        .ok ⟨i, "draw", p.x, p.y,
          .draw [⟨.free, pts.map (fun q => ⟨q.x, q.y, q.z.getD (1/2)⟩)⟩]
            (p.color.getD "black") (p.size.getD "m") (p.fill.getD "none")
            "draw" true (p.isClosed.getD false) false 1⟩) ∧
    (p.segments = none → p.points = none →
      createShapePartial i p =
        .error "Draw shape requires points or segments") := by
  obtain ⟨k, x, y, w, ht, t, ex, ey, pts, segs, c, sz, ic, f⟩ := p
  rcases hk with hk | hk <;> subst hk <;>
    exact ⟨fun pts0 hs hp => by subst hs; subst hp; rfl,
      fun hs hp => by subst hs; subst hp; rfl⟩

/-- C6 witness: a draw descriptor with two points (one missing its
pressure) and a freehand descriptor with no path data, evaluated. -/
theorem c6_draw_defaults_witness :
    createShapePartial 5
      ⟨"draw", 1, 2, none, none, none, none, none,
        some [⟨3, 4, none⟩, ⟨5, 6, some (7/10)⟩], none,
        none, none, none, none⟩ =
      .ok ⟨5, "draw", 1, 2,
        .draw [⟨.free, [⟨3, 4, (1 : Rat)/2⟩, ⟨5, 6, (7 : Rat)/10⟩]⟩]
          "black" "m" "none" "draw" true false false 1⟩ ∧
    createShapePartial 6
      ⟨"freehand", 1, 2, none, none, none, none, none,
        none, none, none, none, none, none⟩ =
      .error "Draw shape requires points or segments" :=
  ⟨by
    have h :=
      (c6_draw_defaults 5
        ⟨"draw", 1, 2, none, none, none, none, none,
          some [⟨3, 4, none⟩, ⟨5, 6, some (7/10)⟩], none,
          none, none, none, none⟩ (Or.inl rfl)).1
        [⟨3, 4, none⟩, ⟨5, 6, some (7/10)⟩] rfl rfl
    simpa using h,
    (c6_draw_defaults 6
      ⟨"freehand", 1, 2, none, none, none, none, none,
        none, none, none, none, none, none⟩ (Or.inr rfl)).2 rfl rfl⟩

/-- C5: a `create_shapes` batch of N descriptors reports success with
count N and exactly N per-shape results; each result depends only on
its own descriptor (and its fresh id), an unknown kind yields an error
naming the offending value, every valid descriptor is still created,
and the number of shapes added equals the number of valid descriptors
— the batch never aborts early. -/
theorem c5_batch_per_shape (ed : EditorState) (nid : Nat)
    (shapes : List ShapeDescriptor) :
    ∃ results,
      (handleCommand ed nid (.create_shapes shapes)).2.2 =
        .batchResult true shapes.length results ∧
      results.length = shapes.length ∧
      (∀ (j : Nat) (q : ShapeDescriptor), shapes[j]? = some q →
        results[j]? = some (cresult (nid + j) q)) ∧
      (∀ (j : Nat) (q : ShapeDescriptor), shapes[j]? = some q →
        q.kind ∉ knownKinds →
        results[j]? = some (.error ("Unknown shape kind: " ++ q.kind))) ∧
      (∀ (j : Nat) (q : ShapeDescriptor), shapes[j]? = some q →
        validDesc q = true →
        ∃ sid, results[j]? = some (.ok sid)) ∧
      (handleCommand ed nid (.create_shapes shapes)).1.shapes.length =
        ed.shapes.length + (shapes.filter validDesc).length := by
  refine ⟨(createShapesBatch ed nid shapes).2.2, rfl,
    batch_results_length shapes ed nid, ?_, ?_, ?_,
    batch_shapes_length shapes ed nid⟩
  · intro j q hq
    exact batch_get shapes ed nid j q hq
  · intro j q hq hk
    have h := batch_get shapes ed nid j q hq
    rwa [show cresult (nid + j) q = .error ("Unknown shape kind: " ++ q.kind)
      from by rw [cresult, createShapePartial_unknown (nid + j) q hk]] at h
  · intro j q hq hv
    have h := batch_get shapes ed nid j q hq
    have hok := createShapePartial_isOk (nid + j) q
    rw [hv] at hok
    refine ⟨nid + j, ?_⟩
    rw [cresult] at h
    cases hc : createShapePartial (nid + j) q <;> rw [hc] at h hok
    · exact h
    · simp [isOkE] at hok

/-- C5 witness: a batch of three descriptors whose middle entry has
the unknown kind "blob": three results, the middle one the descriptive
error, the two valid ones created. -/
theorem c5_batch_per_shape_witness :
    ∃ results,
      (handleCommand ⟨[], []⟩ 0 (.create_shapes
        [⟨"rectangle", 600, 400, some 200, some 100, none, none, none,
            none, none, none, none, none, none⟩,
          ⟨"blob", 1, 2, none, none, none, none, none,
            none, none, none, none, none, none⟩,
          ⟨"circle", 600, 400, some 80, none, none, none, none,
            none, none, none, none, none, none⟩])).2.2 =
        .batchResult true 3 results ∧
      results.length = 3 ∧
      results[1]? = some (.error "Unknown shape kind: blob") ∧
      (∃ sid0, results[0]? = some (.ok sid0)) ∧
      (∃ sid2, results[2]? = some (.ok sid2)) ∧
      (handleCommand ⟨[], []⟩ 0 (.create_shapes
        [⟨"rectangle", 600, 400, some 200, some 100, none, none, none,
            none, none, none, none, none, none⟩,
          ⟨"blob", 1, 2, none, none, none, none, none,
            none, none, none, none, none, none⟩,
          ⟨"circle", 600, 400, some 80, none, none, none, none,
            none, none, none, none, none, none⟩])).1.shapes.length = 2 := by
  obtain ⟨results, h1, h2, _, h4, h5, h6⟩ :=
    c5_batch_per_shape ⟨[], []⟩ 0
      [⟨"rectangle", 600, 400, some 200, some 100, none, none, none,
          none, none, none, none, none, none⟩,
        ⟨"blob", 1, 2, none, none, none, none, none,
          none, none, none, none, none, none⟩,
        ⟨"circle", 600, 400, some 80, none, none, none, none,
          none, none, none, none, none, none⟩]
  exact ⟨results, h1, h2,
    h4 1 _ rfl (by decide),
    h5 0 _ rfl (by decide),
    h5 2 _ rfl (by decide),
    h6⟩

/-- C9: `clear` with no shapes on the page, and `delete_selected` with
no shapes selected, both succeed with a deleted count of 0 and leave
the editor unchanged (so they are idempotent on the empty state). -/
theorem c9_empty_idempotent (ed : EditorState) (nextId : Nat) :
    (ed.shapes = [] →
      handleCommand ed nextId .clear = (ed, nextId, .countResult true 0)) ∧
    (getSelectedShapes ed = [] →
      handleCommand ed nextId .delete_selected =
        (ed, nextId, .countResult true 0)) := by
  constructor
  · intro h
    simp [handleCommand, h]
  · intro h
    simp [handleCommand, h]

/-- C9 witness: both commands on the empty editor. -/
theorem c9_empty_idempotent_witness :
    handleCommand ⟨[], []⟩ 0 .clear = (⟨[], []⟩, 0, .countResult true 0) ∧
    handleCommand ⟨[], []⟩ 0 .delete_selected =
      (⟨[], []⟩, 0, .countResult true 0) :=
  ⟨(c9_empty_idempotent ⟨[], []⟩ 0).1 rfl,
    (c9_empty_idempotent ⟨[], []⟩ 0).2 (by decide)⟩

/-- C2: submitting while the renderer slot is empty rejects with the
unavailable condition and leaves the whole bridge state unchanged (no
id allocated, correlation table untouched), so the next submission
after a renderer connects still gets id `requestId + 1`. -/
theorem c2_unavailable_no_id (s : BridgeState) (cmd : String) (now : Nat)
    (h : s.canvasClient = none) :
    bridgeStep s (.submit cmd now) = (s, .rejectedUnavailable) ∧
    ∀ (hc : Nat) (cmd2 : String) (now2 : Nat),
      (bridgeStep
        { (bridgeStep s (.submit cmd now)).1 with canvasClient := some hc }
        (.submit cmd2 now2)).2 = .submitted (s.requestId + 1) := by
  constructor
  · simp [bridgeStep, h]
  · intro hc cmd2 now2
    simp [bridgeStep, h]

/-- C2 witness: a submission against the initial (disconnected) state,
then a submission after connecting, which gets id 1. -/
theorem c2_unavailable_no_id_witness :
    bridgeStep initBridge (.submit "clear" 0) =
      (initBridge, .rejectedUnavailable) ∧
    (bridgeStep
      { (bridgeStep initBridge (.submit "clear" 0)).1 with
        canvasClient := some 5 }
      (.submit "undo" 3)).2 = .submitted 1 :=
  ⟨(c2_unavailable_no_id initBridge "clear" 0 rfl).1,
    (c2_unavailable_no_id initBridge "clear" 0 rfl).2 5 "undo" 3⟩

/-- C10: when a second renderer connection has replaced a still-open
first one, the first connection's close event unconditionally empties
the slot (the handler does not check that the closing handle is the
stored one), so every later submission is rejected as unavailable even
though the second renderer never disconnected. -/
theorem c10_stale_close_empties_slot (s : BridgeState) (h1 h2 : Nat)
    (hne : h1 ≠ h2) :
    ((bridgeStep (bridgeStep s (.connect h1)).1 (.connect h2)).1).canvasClient
        = some h2 ∧
    ((bridgeStep (bridgeStep (bridgeStep s (.connect h1)).1
        (.connect h2)).1 (.closeConn h1)).1).canvasClient = none ∧
    ∀ (cmd : String) (now : Nat),
      (bridgeStep (bridgeStep (bridgeStep (bridgeStep s (.connect h1)).1
          (.connect h2)).1 (.closeConn h1)).1 (.submit cmd now)).2 =
        .rejectedUnavailable := by
  refine ⟨rfl, rfl, ?_⟩
  intro cmd now
  simp [bridgeStep]

/-- C10 witness: handles 1 and 2 from the initial state, then a
submission. -/
theorem c10_stale_close_empties_slot_witness :
    (1 : Nat) ≠ 2 ∧
    ((bridgeStep (bridgeStep (bridgeStep (bridgeStep initBridge
        (.connect 1)).1 (.connect 2)).1 (.closeConn 1)).1
        (.submit "clear" 0)).2 = .rejectedUnavailable) :=
  ⟨by decide,
    (c10_stale_close_empties_slot initBridge 1 2 (by decide)).2.2 "clear" 0⟩

/-- C3: the pending entry of a submission at time `now` carries the
deadline `now + TIMEOUT` with `TIMEOUT = 10`, fixed at submission
time; a firing timeout whose id is still pending removes the entry and
rejects with the timeout condition; a reply never rejects, and any
rejection the step relation can produce is either the unavailable
rejection of a submit or the timeout rejection of a timer — a reply
whose id is pending resolves normally with the renderer's payload,
even when that payload is error-shaped. -/
theorem c3_deadline_and_rejections :
    TIMEOUT = 10 ∧
    (∀ (s : BridgeState) (cmd : String) (now hc : Nat),
      s.canvasClient = some hc →
      bridgeStep s (.submit cmd now) =
        ({ s with
            requestId := s.requestId + 1,
            pendingRequests :=
              (s.requestId + 1, now + TIMEOUT) :: s.pendingRequests },
          .submitted (s.requestId + 1))) ∧
    (∀ (s : BridgeState) (id : Nat),
      hasId id s.pendingRequests = true →
      bridgeStep s (.timeoutFire id) =
        ({ s with pendingRequests := removeId id s.pendingRequests },
          .rejectedTimeout id)) ∧
    (∀ (s : BridgeState) (e : BridgeEvent),
      isRejection (bridgeStep s e).2 = true →
      (∃ cmd now, e = .submit cmd now ∧
        (bridgeStep s e).2 = .rejectedUnavailable) ∨
      (∃ id, e = .timeoutFire id ∧
        (bridgeStep s e).2 = .rejectedTimeout id)) ∧
    (∀ (s : BridgeState) (id : Nat) (r : CmdResult),
      id ≠ 0 → hasId id s.pendingRequests = true →
      bridgeStep s (.reply id r) =
        ({ s with pendingRequests := removeId id s.pendingRequests },
          .resolved id r)) := by
  refine ⟨rfl, ?_, ?_, ?_, ?_⟩
  · intro s cmd now hc h
    simp [bridgeStep, h]
  · intro s id h
    simp [bridgeStep, h]
  · intro s e h
    cases e with
    | connect h1 => simp [bridgeStep, isRejection] at h
    | closeConn h1 => simp [bridgeStep, isRejection] at h
    | submit cmd now =>
        cases hc : s.canvasClient with
        | none => exact Or.inl ⟨cmd, now, rfl, by simp [bridgeStep, hc]⟩
        | some h1 => simp [bridgeStep, hc, isRejection] at h
    | reply id r =>
        by_cases hz : id = 0
        · simp [bridgeStep, hz, isRejection] at h
        · cases hp : hasId id s.pendingRequests <;>
            simp [bridgeStep, hp, hz, isRejection] at h
    | timeoutFire id =>
        cases hp : hasId id s.pendingRequests with
        | false => simp [bridgeStep, hp, isRejection] at h
        | true => exact Or.inr ⟨id, rfl, by simp [bridgeStep, hp]⟩
  · intro s id r hz h
    simp [bridgeStep, h, hz]

/-- C3 witness: a submission at time 3 against a connected bridge
registers deadline 13; its timeout firing rejects with the timeout
condition; a pending reply carrying an error payload resolves. -/
theorem c3_deadline_and_rejections_witness :
    TIMEOUT = 10 ∧
    bridgeStep ⟨some 5, [], 0⟩ (.submit "clear" 3) =
      (⟨some 5, [(1, 13)], 1⟩, .submitted 1) ∧
    bridgeStep ⟨some 5, [(1, 13)], 1⟩ (.timeoutFire 1) =
      (⟨some 5, [], 1⟩, .rejectedTimeout 1) ∧
    bridgeStep ⟨some 5, [(1, 13)], 1⟩
        (.reply 1 (.shapeResult (.error "Unknown shape kind: blob"))) =
      (⟨some 5, [], 1⟩,
        .resolved 1 (.shapeResult (.error "Unknown shape kind: blob"))) := by
  refine ⟨c3_deadline_and_rejections.1, ?_, ?_, ?_⟩
  · exact c3_deadline_and_rejections.2.1 ⟨some 5, [], 0⟩ "clear" 3 5 rfl
  · exact c3_deadline_and_rejections.2.2.1 ⟨some 5, [(1, 13)], 1⟩ 1 rfl
  · exact c3_deadline_and_rejections.2.2.2.2 ⟨some 5, [(1, 13)], 1⟩ 1
      (.shapeResult (.error "Unknown shape kind: blob")) (by decide) rfl

/-!
Machinery for the settled-at-most-once property: pending ids are
bounded by the id counter, which only grows, so a settled id can never
re-enter the table.
-/

theorem hasId_removeId_self (id : Nat) (l : List (Nat × Nat)) :
    hasId id (removeId id l) = false := by
  induction l with
  | nil => rfl
  | cons q l ih =>
      rw [removeId, List.filter_cons]
      cases hq : (q.1 != id) with
      | false => simpa [removeId] using ih
      | true =>
          have hne : q.1 ≠ id := by simpa using hq
          simpa [hasId, removeId, hne] using ih

theorem hasId_of_removeId (id j : Nat) (l : List (Nat × Nat))
    (h : hasId id (removeId j l) = true) : hasId id l = true := by
  induction l with
  | nil => simpa [removeId] using h
  | cons q l ih =>
      rw [removeId, List.filter_cons] at h
      cases hq : (q.1 != j) with
      | false =>
          rw [hq] at h
          simp only [hasId]
          rw [ih (by simpa [removeId] using h)]
          simp
      | true =>
          rw [hq] at h
          simp only [hasId] at h ⊢
          cases hq1 : (q.1 == id) with
          | true => simp
          | false =>
              rw [hq1] at h
              simp at h ⊢
              exact ih (by simpa [removeId] using h)

/-- Every pending id is at most the current id counter. -/
def IdBound (s : BridgeState) : Prop :=
  ∀ id : Nat, hasId id s.pendingRequests = true → id ≤ s.requestId

theorem idBound_init : IdBound initBridge := by
  intro id h
  simp [initBridge, hasId] at h

theorem bridgeStep_idBound (s : BridgeState) (e : BridgeEvent)
    (hb : IdBound s) : IdBound (bridgeStep s e).1 := by
  cases e with
  | connect h1 => exact fun id h => hb id h
  | closeConn h1 => exact fun id h => hb id h
  | submit cmd now =>
      cases hc : s.canvasClient with
      | none => simpa [bridgeStep, hc] using hb
      | some h1 =>
          intro id h
          simp only [bridgeStep, hc, hasId] at h
          cases hq : (s.requestId + 1 == id) with
          | true =>
              have : s.requestId + 1 = id := by simpa using hq
              simp [bridgeStep, hc, ← this]
          | false =>
              rw [hq] at h
              simp at h
              have := hb id h
              simp [bridgeStep, hc]
              omega
  | reply id0 r =>
      intro id h
      by_cases hz : id0 = 0
      · simp [bridgeStep, hz] at h ⊢
        exact hb id h
      · cases hp : hasId id0 s.pendingRequests with
        | false =>
            simp [bridgeStep, hp, hz] at h ⊢
            exact hb id h
        | true =>
            simp [bridgeStep, hp, hz] at h ⊢
            exact hb id (hasId_of_removeId id id0 _ h)
  | timeoutFire id0 =>
      intro id h
      cases hp : hasId id0 s.pendingRequests with
      | false =>
          simp [bridgeStep, hp] at h ⊢
          exact hb id h
      | true =>
          simp [bridgeStep, hp] at h ⊢
          exact hb id (hasId_of_removeId id id0 _ h)

theorem bridgeStep_requestId_mono (s : BridgeState) (e : BridgeEvent) :
    s.requestId ≤ (bridgeStep s e).1.requestId := by
  cases e with
  | connect h1 => exact Nat.le_refl _
  | closeConn h1 => exact Nat.le_refl _
  | submit cmd now =>
      cases hc : s.canvasClient <;> simp [bridgeStep, hc]
  | reply id0 r =>
      by_cases hz : id0 = 0
      · simp [bridgeStep, hz]
      · cases hp : hasId id0 s.pendingRequests <;> simp [bridgeStep, hp, hz]
  | timeoutFire id0 =>
      cases hp : hasId id0 s.pendingRequests <;> simp [bridgeStep, hp]

/-- Once an id is absent from the table and not above the counter, one
step keeps it absent, keeps it bounded, and cannot settle it. -/
theorem bridgeStep_dead (s : BridgeState) (e : BridgeEvent) (id : Nat)
    (hle : id ≤ s.requestId) (habs : hasId id s.pendingRequests = false) :
    hasId id (bridgeStep s e).1.pendingRequests = false ∧
    id ≤ (bridgeStep s e).1.requestId ∧
    settlesId id (bridgeStep s e).2 = false := by
  cases e with
  | connect h1 => exact ⟨habs, hle, rfl⟩
  | closeConn h1 => exact ⟨habs, hle, rfl⟩
  | submit cmd now =>
      cases hc : s.canvasClient with
      | none => exact ⟨by simpa [bridgeStep, hc] using habs,
          by simpa [bridgeStep, hc] using hle, by simp [bridgeStep, hc, settlesId]⟩
      | some h1 =>
          refine ⟨?_, by simp [bridgeStep, hc]; omega,
            by simp [bridgeStep, hc, settlesId]⟩
          simp only [bridgeStep, hc, hasId]
          have : s.requestId + 1 ≠ id := by omega
          simp [this, habs]
  | reply id0 r =>
      by_cases hz : id0 = 0
      · exact ⟨by simpa [bridgeStep, hz] using habs,
          by simpa [bridgeStep, hz] using hle,
          by simp [bridgeStep, hz, settlesId]⟩
      · cases hp : hasId id0 s.pendingRequests with
        | false => exact ⟨by simpa [bridgeStep, hp, hz] using habs,
            by simpa [bridgeStep, hp, hz] using hle,
            by simp [bridgeStep, hp, hz, settlesId]⟩
        | true =>
            have hne : id0 ≠ id := fun hh => by
              rw [hh, habs] at hp
              exact Bool.noConfusion hp
            refine ⟨?_, by simp [bridgeStep, hp, hz]; omega, ?_⟩
            · cases hq : hasId id (bridgeStep s (.reply id0 r)).1.pendingRequests
                with
              | false => rfl
              | true =>
                  simp [bridgeStep, hp, hz] at hq
                  rw [hasId_of_removeId id id0 _ hq] at habs
                  exact Bool.noConfusion habs
            · simp [bridgeStep, hp, hz, settlesId, hne]
  | timeoutFire id0 =>
      cases hp : hasId id0 s.pendingRequests with
      | false => exact ⟨by simpa [bridgeStep, hp] using habs,
          by simpa [bridgeStep, hp] using hle, by simp [bridgeStep, hp, settlesId]⟩
      | true =>
          have hne : id0 ≠ id := fun hh => by
            rw [hh, habs] at hp
            exact Bool.noConfusion hp
          refine ⟨?_, by simp [bridgeStep, hp]; omega, ?_⟩
          · cases hq : hasId id (bridgeStep s (.timeoutFire id0)).1.pendingRequests
              with
            | false => rfl
            | true =>
                simp [bridgeStep, hp] at hq
                rw [hasId_of_removeId id id0 _ hq] at habs
                exact Bool.noConfusion habs
          · simp [bridgeStep, hp, settlesId, hne]

theorem run_dead :
    ∀ (es : List BridgeEvent) (s : BridgeState) (id : Nat),
      id ≤ s.requestId → hasId id s.pendingRequests = false →
      settleCount id (bridgeRun s es).2 = 0 := by
  intro es
  induction es with
  | nil => intro s id hle habs; rfl
  | cons e es ih =>
      intro s id hle habs
      obtain ⟨h1, h2, h3⟩ := bridgeStep_dead s e id hle habs
      simp only [bridgeRun, settleCount, List.filter_cons, h3]
      exact ih (bridgeStep s e).1 id h2 h1

theorem bridgeStep_settles_requires (s : BridgeState) (e : BridgeEvent)
    (id : Nat) (h : settlesId id (bridgeStep s e).2 = true) :
    hasId id s.pendingRequests = true := by
  cases e with
  | connect h1 => simp [bridgeStep, settlesId] at h
  | closeConn h1 => simp [bridgeStep, settlesId] at h
  | submit cmd now =>
      cases hc : s.canvasClient <;> simp [bridgeStep, hc, settlesId] at h
  | reply id0 r =>
      by_cases hz : id0 = 0
      · simp [bridgeStep, hz, settlesId] at h
      · cases hp : hasId id0 s.pendingRequests with
        | false => simp [bridgeStep, hp, hz, settlesId] at h
        | true =>
            simp [bridgeStep, hp, hz, settlesId] at h
            rw [← h]
            exact hp
  | timeoutFire id0 =>
      cases hp : hasId id0 s.pendingRequests with
      | false => simp [bridgeStep, hp, settlesId] at h
      | true =>
          simp [bridgeStep, hp, settlesId] at h
          rw [← h]
          exact hp

theorem bridgeStep_settled_gone (s : BridgeState) (e : BridgeEvent)
    (id : Nat) (hb : IdBound s)
    (h : settlesId id (bridgeStep s e).2 = true) :
    hasId id (bridgeStep s e).1.pendingRequests = false ∧
    id ≤ (bridgeStep s e).1.requestId := by
  have hpend := bridgeStep_settles_requires s e id h
  have hle : id ≤ s.requestId := hb id hpend
  cases e with
  | connect h1 => simp [bridgeStep, settlesId] at h
  | closeConn h1 => simp [bridgeStep, settlesId] at h
  | submit cmd now =>
      cases hc : s.canvasClient <;> simp [bridgeStep, hc, settlesId] at h
  | reply id0 r =>
      by_cases hz : id0 = 0
      · simp [bridgeStep, hz, settlesId] at h
      · cases hp : hasId id0 s.pendingRequests with
        | false => simp [bridgeStep, hp, hz, settlesId] at h
        | true =>
            simp [bridgeStep, hp, hz, settlesId] at h
            subst h
            exact ⟨by simp [bridgeStep, hp, hz, hasId_removeId_self],
              by simp [bridgeStep, hp, hz]; omega⟩
  | timeoutFire id0 =>
      cases hp : hasId id0 s.pendingRequests with
      | false => simp [bridgeStep, hp, settlesId] at h
      | true =>
          simp [bridgeStep, hp, settlesId] at h
          subst h
          exact ⟨by simp [bridgeStep, hp, hasId_removeId_self],
            by simp [bridgeStep, hp]; omega⟩

theorem run_le_one :
    ∀ (es : List BridgeEvent) (s : BridgeState), IdBound s →
      ∀ id : Nat, settleCount id (bridgeRun s es).2 ≤ 1 := by
  intro es
  induction es with
  | nil => intro s hb id; exact Nat.zero_le 1
  | cons e es ih =>
      intro s hb id
      have hb' := bridgeStep_idBound s e hb
      cases hs : settlesId id (bridgeStep s e).2 with
      | false =>
          simp only [bridgeRun, settleCount, List.filter_cons, hs]
          exact ih (bridgeStep s e).1 hb' id
      | true =>
          obtain ⟨h1, h2⟩ := bridgeStep_settled_gone s e id hb hs
          simp only [bridgeRun, settleCount, List.filter_cons, hs]
          have h0 := run_dead es (bridgeStep s e).1 id h2 h1
          simp only [settleCount] at h0
          simp [h0]

/-- C1: from the initial bridge state, any event trace settles each
request id at most once — a pending request is removed exactly when it
is settled, by the first matching reply or by its timeout, never both
— and a reply envelope whose id matches no pending request (unknown,
already resolved, or already timed out) is a no-op: no state change
and no settlement. -/
theorem c1_settled_at_most_once :
    (∀ (events : List BridgeEvent) (id : Nat),
      settleCount id (bridgeRun initBridge events).2 ≤ 1) ∧
    (∀ (s : BridgeState) (id : Nat) (r : CmdResult),
      hasId id s.pendingRequests = false →
      bridgeStep s (.reply id r) = (s, .silent)) ∧
    (∀ (s : BridgeState) (id : Nat) (r : CmdResult),
      id ≠ 0 → hasId id s.pendingRequests = true →
      hasId id (bridgeStep s (.reply id r)).1.pendingRequests = false ∧
      (bridgeStep s (.reply id r)).2 = .resolved id r) ∧
    (∀ (s : BridgeState) (id : Nat),
      hasId id s.pendingRequests = true →
      hasId id (bridgeStep s (.timeoutFire id)).1.pendingRequests = false ∧
      (bridgeStep s (.timeoutFire id)).2 = .rejectedTimeout id) := by
  refine ⟨fun events id => run_le_one events initBridge idBound_init id,
    ?_, ?_, ?_⟩
  · intro s id r h
    simp [bridgeStep, h]
  · intro s id r hz h
    exact ⟨by simp [bridgeStep, h, hz, hasId_removeId_self],
      by simp [bridgeStep, h, hz]⟩
  · intro s id h
    exact ⟨by simp [bridgeStep, h, hasId_removeId_self], by simp [bridgeStep, h]⟩

/-- C1 witness: a trace that connects, submits, resolves id 1, then
sees a duplicate reply and a late timeout for id 1 — settled once —
and a reply against the initial state with unknown id 3 is a no-op. -/
theorem c1_settled_at_most_once_witness :
    settleCount 1 (bridgeRun initBridge
      [.connect 5, .submit "clear" 0, .reply 1 .simpleSuccess,
        .reply 1 .simpleSuccess, .timeoutFire 1]).2 ≤ 1 ∧
    bridgeStep initBridge (.reply 3 .simpleSuccess) =
      (initBridge, .silent) ∧
    hasId 1 (⟨some 5, [(1, 10)], 1⟩ : BridgeState).pendingRequests = true ∧
    (bridgeStep ⟨some 5, [(1, 10)], 1⟩ (.reply 1 .simpleSuccess)).2 =
      .resolved 1 .simpleSuccess :=
  ⟨c1_settled_at_most_once.1
      [.connect 5, .submit "clear" 0, .reply 1 .simpleSuccess,
        .reply 1 .simpleSuccess, .timeoutFire 1] 1,
    c1_settled_at_most_once.2.1 initBridge 3 .simpleSuccess rfl,
    rfl,
    (c1_settled_at_most_once.2.2.1 ⟨some 5, [(1, 10)], 1⟩ 1
      .simpleSuccess (by decide) rfl).2⟩

end CanvasBridge
